import Mathlib

/-!
# Verification of the osm-poi-cloud pipeline orchestration

Shallow embedding of the orchestration-relevant parts of the
`mvexel/osm-poi-cloud` repository:

* the restart-from-processor resubmission loop (README, "Restart From
  Processor Stage"),
* the Step Functions pipeline chain built by
  `infra/cdk/lib/pipeline-stack.ts` (tasks, `addRetry`, `addCatch`),
* the sharder container entrypoint `stack/sharding/entrypoint.sh`
  (env validation, planet download, size guard),
* the Batch job monitor `monitor.sh` (per-status count loop),
* the S3 lifecycle rules configured in
  `infra/cdk/lib/infrastructure-stack.ts` (`expire-old-runs`),
* and, where the orchestrator itself (`scripts/run_pipeline.py` / the
  Step Functions Map state) is not part of the source tree, components
  modelled from the specification (marked as such on each definition).
-/

namespace OsmPoiCloud

/-! ## Storage model

S3 is modelled as the list of keys of the objects that exist. -/

abbrev S3Keys := List String

def s3Exists (s3 : S3Keys) (key : String) : Bool :=
  s3.contains key

/-! ## Shard manifest features

The manifest is GeoJSON; the restart loop reads
`.features[].properties | "\(.shard_id) \(.z) \(.x) \(.y)"`. -/

structure ShardFeature where
  shard_id : String
  z : Nat
  x : Nat
  y : Nat
deriving DecidableEq, Repr

/-! ## Artifact paths used by the restart procedure (README) -/

def shardDataKey (runId shardId : String) : String :=
  "run/" ++ runId ++ "/shards/" ++ shardId ++ "/data.parquet"

def shardEmptyMarkerKey (runId shardId : String) : String :=
  "run/" ++ runId ++ "/shards/" ++ shardId ++ "/_EMPTY"

def manifestKey (runId : String) : String :=
  "run/" ++ runId ++ "/shards/manifest.json"

/-- The two `aws s3 ls ... && continue` checks of the restart loop: a shard
already has output when either its `data.parquet` or its `_EMPTY` marker
exists. -/
def shardHasOutput (s3 : S3Keys) (runId shardId : String) : Bool :=
  s3Exists s3 (shardDataKey runId shardId) ||
    s3Exists s3 (shardEmptyMarkerKey runId shardId)

/-- The "Restart From Processor Stage" loop of the README: for every feature of
the manifest, submit a process job unless the shard's output artifact
(`data.parquet` or `_EMPTY`) already exists in S3. The result is the list of
features for which `aws batch submit-job` is invoked, in manifest order. -/
def restartProcessSubmissions (s3 : S3Keys) (runId : String)
    (manifest : List ShardFeature) : List ShardFeature :=
  manifest.filter (fun f => !(shardHasOutput s3 runId f.shard_id))

/-! ## Sharder container entrypoint (`stack/sharding/entrypoint.sh`) -/

/-- Environment contract of the sharder entrypoint. -/
structure SharderEnv where
  runId : String
  s3Bucket : String
deriving DecidableEq, Repr

/-- `PLANET_KEY="runs/${RUN_ID}/planet.osm.pbf"` in the current entrypoint. -/
def sharderPlanetKey (runId : String) : String :=
  "runs/" ++ runId ++ "/planet.osm.pbf"

/-- `PLANET_KEY` as computed by the older second variant of the entrypoint
script; written out separately so agreement between the two components is a
theorem, not an assumption. -/
def sharderPlanetKeyLegacy (runId : String) : String :=
  "runs/" ++ runId ++ "/planet.osm.pbf"

inductive SharderAction
  | downloadPlanet (bucket key : String)
  | runSharderBinary (bucket runId : String)
deriving DecidableEq, Repr

structure SharderResult where
  exitCode : Nat
  actions : List SharderAction
deriving DecidableEq, Repr

/-- The `SIZE_BYTES` guard threshold of the entrypoint (10 MiB). -/
def planetSizeThreshold : Nat := 10485760

/-- The sharder entrypoint: validate `RUN_ID`/`S3_BUCKET`, download the planet
file (`downloadOk` models whether `aws s3 cp` or the `curl -f` fallback
succeeded), reject files smaller than `planetSizeThreshold` bytes, and only
then run the `osm-planet-sharding` binary. `actions` records the externally
visible steps in order. -/
def sharderEntrypoint (env : SharderEnv) (downloadOk : Bool)
    (downloadedSize : Nat) : SharderResult :=
  if env.runId = "" || env.s3Bucket = "" then
    { exitCode := 1, actions := [] }
  else if !downloadOk then
    { exitCode := 1,
      actions := [SharderAction.downloadPlanet env.s3Bucket (sharderPlanetKey env.runId)] }
  else if downloadedSize < planetSizeThreshold then
    { exitCode := 1,
      actions := [SharderAction.downloadPlanet env.s3Bucket (sharderPlanetKey env.runId)] }
  else
    { exitCode := 0,
      actions := [SharderAction.downloadPlanet env.s3Bucket (sharderPlanetKey env.runId),
                  SharderAction.runSharderBinary env.s3Bucket env.runId] }

/-- Whether a run of the entrypoint invoked the `osm-planet-sharding` binary. -/
def invokesSharder (res : SharderResult) : Bool :=
  res.actions.any (fun a =>
    match a with
    | SharderAction.runSharderBinary _ _ => true
    | _ => false)

/-! ## S3 lifecycle rules (`infra/cdk/lib/infrastructure-stack.ts`) -/

structure LifecycleRule where
  ruleId : String
  filterKeyPref : Option String
  expirationDays : Option Nat
  abortIncompleteUploadDays : Option Nat
deriving DecidableEq, Repr

def cleanupIncompleteUploadsRule : LifecycleRule :=
  { ruleId := "cleanup-incomplete-uploads"
    filterKeyPref := none
    expirationDays := none
    abortIncompleteUploadDays := some 7 }

def expireOldRunsRule : LifecycleRule :=
  { ruleId := "expire-old-runs"
    filterKeyPref := some "runs/"
    expirationDays := some 30
    abortIncompleteUploadDays := none }

/-- The `lifecycleRules` list of the `DataBucket`. -/
def dataBucketLifecycleRules : List LifecycleRule :=
  [cleanupIncompleteUploadsRule, expireOldRunsRule]

/-- S3 lifecycle filter semantics: a rule applies to an object whose key starts
with the rule's prefix (a rule without a prefix applies to every object). -/
def ruleAppliesTo (r : LifecycleRule) (key : String) : Bool :=
  match r.filterKeyPref with
  | none => true
  | some p => p.isPrefixOf key

/-- Days after creation at which some rule of the configuration expires an
object with the given key (`none` when no expiration applies); when several
rules apply, S3 honours the earliest expiration. -/
def objectExpirationDays (rules : List LifecycleRule) (key : String) : Option Nat :=
  rules.foldr
    (fun r acc =>
      match (if ruleAppliesTo r key then r.expirationDays else none), acc with
      | some d, some e => some (min d e)
      | some d, none => some d
      | none, acc2 => acc2)
    none

/-! ## Step Functions pipeline chain (`infra/cdk/lib/pipeline-stack.ts`)

The stack chains `DownloadPlanet → ShardPlanet → ProcessPlanet`
(plus `PostProcess` when a postprocess job definition is configured) into
`NotifySuccess`; every task has `addCatch(failure)` routing to the
`NotifyFailure` terminal state. -/

inductive Stage
  | download
  | shard
  | process
  | postprocess
deriving DecidableEq, Repr

/-- The ordered task chain built by `PipelineStack`; `hasPostprocess` mirrors
the optional `postprocessJobDefinition` context value. -/
def pipelineChain (hasPostprocess : Bool) : List Stage :=
  [Stage.download, Stage.shard, Stage.process] ++
    (if hasPostprocess then [Stage.postprocess] else [])

inductive SfnRunResult
  | notifySuccess
  | notifyFailure (failedStage : Stage)
deriving DecidableEq, Repr

/-- Executes the chained tasks in order. `outcome s` is whether task `s`
(after its own retries) succeeded; on the first failure the task's
`addCatch` routes to the `NotifyFailure` terminal state, which records the
stage whose catch fired (its error is stored at `$.error` by `resultPath`). -/
def runChain (outcome : Stage → Bool) : List Stage → SfnRunResult
  | [] => SfnRunResult.notifySuccess
  | s :: rest =>
    if outcome s then runChain outcome rest else SfnRunResult.notifyFailure s

/-- The tasks that are actually submitted during an execution of the chain:
every task up to and including the first failing one. -/
def submittedStages (outcome : Stage → Bool) : List Stage → List Stage
  | [] => []
  | s :: rest =>
    if outcome s then s :: submittedStages outcome rest else [s]

/-- The stages strictly after `s` in the chain (the downstream stages, whose
dependencies include `s` in the linear topology). -/
def downstreamOf (l : List Stage) (s : Stage) : List Stage :=
  (l.dropWhile (fun t => t != s)).tail

/-- A task outcome assignment under which the download task succeeds and the
shard task fails. -/
def failAtShardOutcome : Stage → Bool :=
  fun s => s == Stage.download

/-! ## Step Functions retry policies (`addRetry` in `pipeline-stack.ts`) -/

structure RetryProps where
  intervalSeconds : Nat
  maxAttempts : Nat
  backoffRate : Nat
deriving DecidableEq, Repr

/-- `download.addRetry({ interval: 60s, maxAttempts: 3, backoffRate: 2 })`. -/
def downloadRetryProps : RetryProps :=
  { intervalSeconds := 60, maxAttempts := 3, backoffRate := 2 }

/-- `shard.addRetry({ interval: 60s, maxAttempts: 3, backoffRate: 2 })`. -/
def shardRetryProps : RetryProps :=
  { intervalSeconds := 60, maxAttempts := 3, backoffRate := 2 }

/-- `processPlanet.addRetry({ interval: 60s, maxAttempts: 2, backoffRate: 2 })`. -/
def processRetryProps : RetryProps :=
  { intervalSeconds := 60, maxAttempts := 2, backoffRate := 2 }

/-- Record of one task execution under a retry policy: how many attempts ran,
the wait inserted before each retry (in order), and whether the task ended in
success. -/
structure TaskRun where
  attemptsMade : Nat
  retryDelays : List Nat
  succeeded : Bool
deriving DecidableEq, Repr

/-- Step Functions `Retry` semantics: the initial attempt runs, and after a
failed attempt the task is retried while retries remain, waiting
`interval * backoffRate ^ retriesSoFar` seconds first. `outcome i` is the
result of the `i`-th attempt (0-based); `retriesLeft` counts remaining
retries, `attemptIdx` the current attempt. -/
def runTaskWithRetry (r : RetryProps) (outcome : Nat → Bool) :
    Nat → Nat → TaskRun
  | retriesLeft, attemptIdx =>
    if outcome attemptIdx then
      { attemptsMade := attemptIdx + 1, retryDelays := [], succeeded := true }
    else
      match retriesLeft with
      | 0 => { attemptsMade := attemptIdx + 1, retryDelays := [], succeeded := false }
      | n + 1 =>
        let rest := runTaskWithRetry r outcome n (attemptIdx + 1)
        { attemptsMade := rest.attemptsMade
          retryDelays := r.intervalSeconds * r.backoffRate ^ attemptIdx :: rest.retryDelays
          succeeded := rest.succeeded }

/-- One task execution under `addRetry` policy `r`: the initial attempt plus
up to `r.maxAttempts` retries. -/
def sfnExecuteTask (r : RetryProps) (outcome : Nat → Bool) : TaskRun :=
  runTaskWithRetry r outcome r.maxAttempts 0

/-- An outcome sequence that fails the first three attempts and succeeds from
the fourth on. -/
def failThriceOutcome : Nat → Bool :=
  fun i => decide (3 ≤ i)

/-! ## Job environments passed by the state machine (`pipeline-stack.ts`)

Each `BatchSubmitJob` sets its container environment from the execution
state: `RUN_ID` from `$.runId` and, for the shard/process/postprocess tasks,
`SHARD_PREFIX` from `$.shardPrefix`. -/

/-- The fields of the execution input that the tasks read via `JsonPath`. -/
structure SfnExecInput where
  runId : String
  shardPrefixVal : String
deriving DecidableEq, Repr

def downloadJobEnv (input : SfnExecInput) : List (String × String) :=
  [("RUN_ID", input.runId)]

def shardJobEnv (input : SfnExecInput) : List (String × String) :=
  [("RUN_ID", input.runId), ("SHARD_PREFIX", input.shardPrefixVal)]

def processJobEnv (input : SfnExecInput) : List (String × String) :=
  [("RUN_ID", input.runId), ("SHARD_PREFIX", input.shardPrefixVal)]

/-! ## Fan-out scheduler (spec-modelled)

The production fan-out (the Step Functions Map state over the manifest,
documented in the README as running up to 50 parallel Batch jobs) is not part
of the source tree, so the sync-mode fan-out discipline is modelled from the
specification. -/

/-- Default concurrency ceiling of the fan-out stage (README: "Map state runs
up to 50 parallel Batch jobs per shard"; spec: "a fixed concurrency ceiling
(default 50)"). -/
def defaultProcessConcurrency : Nat := 50

/-- Modelled from the spec: the sync-mode fan-out scheduler's view of the
process stage — descriptors still queued, jobs currently in
`Submitted`/`Running` state, and jobs completed. -/
structure FanOutState where
  queued : Nat
  inflight : Nat
  completed : Nat
deriving DecidableEq, Repr

/-- Modelled from the spec: one scheduler transition of the sync-mode fan-out
(`scripts/run_pipeline.py` is not under the source tree). A queued descriptor
may be submitted only while fewer than `C` jobs are in flight (additional
descriptors queue until a slot frees); an in-flight job may complete. -/
inductive FanOutStep (C : Nat) : FanOutState → FanOutState → Prop
  | submit (st : FanOutState) (hq : 0 < st.queued) (hc : st.inflight < C) :
      FanOutStep C st
        { queued := st.queued - 1, inflight := st.inflight + 1,
          completed := st.completed }
  | complete (st : FanOutState) (hr : 0 < st.inflight) :
      FanOutStep C st
        { queued := st.queued, inflight := st.inflight - 1,
          completed := st.completed + 1 }

/-- Initial fan-out state for a manifest with `N` descriptors. -/
def fanOutInit (N : Nat) : FanOutState :=
  { queued := N, inflight := 0, completed := 0 }

/-- States the fan-out scheduler can reach during the process stage. -/
def FanOutReachable (C N : Nat) (st : FanOutState) : Prop :=
  Relation.ReflTransGen (FanOutStep C) (fanOutInit N) st

/-! ## Manifest reader and process stage (partially spec-modelled) -/

/-- The manifest artifact store: a key either maps to a parsed descriptor
list, or to `none` when the object exists but does not parse. -/
abbrev ManifestStore := List (String × Option (List ShardFeature))

inductive ManifestError
  | manifestNotFound
  | manifestCorrupt
deriving DecidableEq, Repr

/-- Modelled from the spec: `ManifestReader.read` (the orchestrator's reader,
`scripts/run_pipeline.py`, is not under the source tree) — a missing artifact
raises `ManifestNotFoundError`, an unparsable one `ManifestCorruptError`, and
an empty descriptor list is returned as a valid result. -/
def readManifest (store : ManifestStore) (loc : String) :
    Except ManifestError (List ShardFeature) :=
  match store.lookup loc with
  | none => Except.error ManifestError.manifestNotFound
  | some none => Except.error ManifestError.manifestCorrupt
  | some (some ds) => Except.ok ds

inductive ProcessStageState
  | succeeded
  | failed
  | blockedOnManifest (e : ManifestError)
deriving DecidableEq, Repr

structure ProcessStageRun where
  stageState : ProcessStageState
  submissions : List ShardFeature
  proceedToFanIn : Bool
deriving DecidableEq, Repr

/-- Modelled from the spec: the Scheduler's fan-out step — read the manifest,
skip descriptors whose output artifact already exists (the same artifact check
as the README restart loop), submit the rest, and mark the stage `Succeeded`
exactly when every submitted descriptor's job succeeds; the fan-in stage
proceeds only on success. -/
def runProcessStage (store : ManifestStore) (s3 : S3Keys) (runId : String)
    (jobSucceeds : ShardFeature → Bool) : ProcessStageRun :=
  match readManifest store (manifestKey runId) with
  | Except.error e =>
    { stageState := ProcessStageState.blockedOnManifest e
      submissions := []
      proceedToFanIn := false }
  | Except.ok ds =>
    let subs := restartProcessSubmissions s3 runId ds
    if subs.all jobSucceeds then
      { stageState := ProcessStageState.succeeded
        submissions := subs
        proceedToFanIn := true }
    else
      { stageState := ProcessStageState.failed
        submissions := subs
        proceedToFanIn := false }

/-! ## Orchestrator configuration validation (spec-modelled) -/

/-- Modelled from the spec: the StageCatalog of the orchestrator
(`scripts/run_pipeline.py` is not under the source tree); the five stage
names per the README pipeline flow. -/
def stageCatalog : List String :=
  ["download", "shard", "process", "merge", "tiles"]

inductive OrchestratorError
  | configurationError (msg : String)
deriving DecidableEq, Repr

/-- Modelled from the spec: RunContext validation — `run_id` must be
non-empty and `start_stage`, if given, must name a registered stage,
otherwise a `ConfigurationError` results. -/
def validateRunContext (runId : String) (startStage : Option String) :
    Except OrchestratorError Unit :=
  if runId = "" then
    Except.error (OrchestratorError.configurationError "run_id must be non-empty")
  else
    match startStage with
    | none => Except.ok ()
    | some s =>
      if stageCatalog.contains s then Except.ok ()
      else Except.error (OrchestratorError.configurationError "unknown start stage")

structure OrchestratorResult where
  exitCode : Nat
  submittedStageNames : List String
deriving DecidableEq, Repr

/-- The topological slice of the catalog starting at `startStage`. -/
def stagesFrom (startStage : Option String) : List String :=
  match startStage with
  | none => stageCatalog
  | some s => stageCatalog.dropWhile (fun t => t != s)

/-- Modelled from the spec: the orchestrator `run` command — on a
configuration error it exits non-zero having submitted no work; otherwise it
drives the stages from `start_stage` onwards. -/
def orchestratorRun (runId : String) (startStage : Option String) :
    OrchestratorResult :=
  match validateRunContext runId startStage with
  | Except.error _ => { exitCode := 1, submittedStageNames := [] }
  | Except.ok _ => { exitCode := 0, submittedStageNames := stagesFrom startStage }

/-! ## Batch job monitor (`monitor.sh`) -/

inductive BatchJobStatus
  | submitted
  | pending
  | runnable
  | starting
  | running
  | succeeded
  | failed
deriving DecidableEq, Repr

/-- The status loop of `monitor.sh` iterates over exactly these statuses. -/
def monitoredStatuses : List BatchJobStatus :=
  [BatchJobStatus.submitted, BatchJobStatus.pending, BatchJobStatus.runnable,
   BatchJobStatus.starting, BatchJobStatus.running, BatchJobStatus.succeeded,
   BatchJobStatus.failed]

structure JobSummary where
  jobName : String
  status : BatchJobStatus
deriving DecidableEq, Repr

/-- The backend's `list-jobs` result for a status filter, returned page by
page. -/
def PagedListJobs := BatchJobStatus → List (List JobSummary)

/-- `aws batch list-jobs --query "length(jobSummaryList)"`: the CLI paginates
the call itself, concatenating every page into one `jobSummaryList` before
the length query is applied. -/
def cliListJobsCount (pages : List (List JobSummary)) : Nat :=
  pages.flatten.length

/-- The per-status count loop of `monitor.sh`. -/
def monitorStatusCounts (backend : PagedListJobs) :
    List (BatchJobStatus × Nat) :=
  monitoredStatuses.map (fun st => (st, cliListJobsCount (backend st)))

end OsmPoiCloud

namespace OsmPoiCloud

/-! ## Theorems -/

/-- C1: re-running the restart-from-processor procedure submits a process job
for a manifest feature if and only if that shard's expected output artifact
(`data.parquet` or the `_EMPTY` marker) does not already exist; features whose
artifact exists are skipped. -/
theorem restart_submits_iff_artifact_missing (s3 : S3Keys) (runId : String)
    (manifest : List ShardFeature) (f : ShardFeature) (hf : f ∈ manifest) :
    f ∈ restartProcessSubmissions s3 runId manifest ↔
      shardHasOutput s3 runId f.shard_id = false := by
  simp [restartProcessSubmissions, List.mem_filter, hf]

theorem restart_submits_iff_artifact_missing_witness :
    (⟨"b", 0, 0, 1⟩ : ShardFeature) ∈
        restartProcessSubmissions [shardDataKey "r" "a"] "r"
          [⟨"a", 0, 0, 0⟩, ⟨"b", 0, 0, 1⟩] ↔
      shardHasOutput [shardDataKey "r" "a"] "r" "b" = false :=
  restart_submits_iff_artifact_missing [shardDataKey "r" "a"] "r"
    [⟨"a", 0, 0, 0⟩, ⟨"b", 0, 0, 1⟩] ⟨"b", 0, 0, 1⟩ (by simp)

/-- C9: the sharder entrypoint treats a downloaded planet file smaller than
10485760 bytes as an incomplete download: it exits with code 1 and the
`osm-planet-sharding` binary is invoked exactly when the size reaches the
threshold. -/
theorem sharder_size_guard (env : SharderEnv) (size : Nat)
    (h1 : env.runId ≠ "") (h2 : env.s3Bucket ≠ "") :
    invokesSharder (sharderEntrypoint env true size) =
        decide (planetSizeThreshold ≤ size) ∧
      (size < planetSizeThreshold →
        (sharderEntrypoint env true size).exitCode = 1) := by
  constructor
  · by_cases hs : size < planetSizeThreshold
    · simp [sharderEntrypoint, invokesSharder, h1, h2, hs, Nat.not_le.mpr hs]
    · simp [sharderEntrypoint, invokesSharder, h1, h2, hs, Nat.le_of_not_lt hs]
  · intro hs
    simp [sharderEntrypoint, h1, h2, hs]

theorem sharder_size_guard_witness :
    (invokesSharder (sharderEntrypoint ⟨"run-1", "bucket"⟩ true 512) =
        decide (planetSizeThreshold ≤ 512) ∧
      (512 < planetSizeThreshold →
        (sharderEntrypoint ⟨"run-1", "bucket"⟩ true 512).exitCode = 1)) :=
  sharder_size_guard ⟨"run-1", "bucket"⟩ 512 (by decide) (by decide)

/-- C2: in sync mode the fan-out scheduler never holds more than the
concurrency ceiling `C` jobs simultaneously in `Submitted`/`Running` state:
every state reachable from the initial state of a manifest with `N`
descriptors satisfies `inflight ≤ C`; further descriptors stay queued until a
slot frees. -/
theorem fanout_inflight_never_exceeds_ceiling (C N : Nat) (st : FanOutState)
    (h : FanOutReachable C N st) : st.inflight ≤ C := by
  induction h with
  | refl => exact Nat.zero_le C
  | tail _ hstep ih =>
    cases hstep with
    | submit hq hc => exact hc
    | complete hr => exact Nat.le_trans (Nat.sub_le _ _) ih

theorem fanout_inflight_never_exceeds_ceiling_witness :
    ({ queued := 2, inflight := 1, completed := 0 } : FanOutState).inflight ≤
      defaultProcessConcurrency :=
  fanout_inflight_never_exceeds_ceiling defaultProcessConcurrency 3 _
    (Relation.ReflTransGen.single
      (FanOutStep.submit (fanOutInit 3) (by decide) (by decide)))

/-- C8: the monitor's per-state job counts accumulate across backend pages:
for each monitored status the reported count equals the sum of the page
sizes, and the seven statuses `SUBMITTED`/`PENDING`/`RUNNABLE`/`STARTING`/
`RUNNING`/`SUCCEEDED`/`FAILED` are all covered by the loop. -/
theorem monitor_counts_accumulate_pages (backend : PagedListJobs) :
    monitorStatusCounts backend =
        monitoredStatuses.map
          (fun st => (st, ((backend st).map List.length).sum)) ∧
      ∀ st : BatchJobStatus, st ∈ monitoredStatuses := by
  constructor
  · unfold monitorStatusCounts cliListJobsCount
    simp [List.length_flatten]
  · intro st
    cases st <;> simp [monitoredStatuses]

theorem monitor_counts_accumulate_pages_witness :
    monitorStatusCounts (fun _ => [[⟨"a", BatchJobStatus.running⟩],
        [⟨"b", BatchJobStatus.running⟩, ⟨"c", BatchJobStatus.running⟩]]) =
        monitoredStatuses.map (fun st => (st,
          (([[(⟨"a", BatchJobStatus.running⟩ : JobSummary)],
            [⟨"b", BatchJobStatus.running⟩,
             ⟨"c", BatchJobStatus.running⟩]].map List.length).sum))) ∧
      ∀ st : BatchJobStatus, st ∈ monitoredStatuses :=
  monitor_counts_accumulate_pages
    (fun _ => [[⟨"a", BatchJobStatus.running⟩],
      [⟨"b", BatchJobStatus.running⟩, ⟨"c", BatchJobStatus.running⟩]])

/-- All elements of `pre` satisfy `p`, so `dropWhile` skips over `pre`. -/
lemma list_dropWhile_append_of_all {α : Type} (p : α → Bool) :
    ∀ (pre rest : List α), (∀ t ∈ pre, p t = true) →
      (pre ++ rest).dropWhile p = rest.dropWhile p := by
  intro pre
  induction pre with
  | nil => intro rest _; rfl
  | cons a l ih =>
    intro rest h
    have ha : p a = true := h a (List.mem_cons_self a l)
    rw [List.cons_append, List.dropWhile_cons]
    simp only [ha, if_true]
    exact ih rest (fun t ht => h t (List.mem_cons_of_mem a ht))

/-- A failed chain execution splits the chain at the first failing stage. -/
lemma runChain_failure_split (outcome : Stage → Bool) :
    ∀ (l : List Stage) (s : Stage),
      runChain outcome l = SfnRunResult.notifyFailure s →
      ∃ pre post, l = pre ++ s :: post ∧ (∀ t ∈ pre, outcome t = true) ∧
        outcome s = false ∧
        submittedStages outcome l = pre ++ [s] := by
  intro l
  induction l with
  | nil => intro s h; simp [runChain] at h
  | cons a rest ih =>
    intro s h
    by_cases ha : outcome a
    · have h2 : runChain outcome rest = SfnRunResult.notifyFailure s := by
        simpa [runChain, ha] using h
      obtain ⟨pre, post, hsplit, hpre, hs, hsub⟩ := ih s h2
      refine ⟨a :: pre, post, by simp [hsplit], ?_, hs, ?_⟩
      · intro t ht
        rcases List.mem_cons.mp ht with h1 | h1
        · exact h1 ▸ ha
        · exact hpre t h1
      · simp [submittedStages, ha, hsub]
    · have hsa : s = a := by
        simp [runChain, ha] at h
        exact h.symm
      subst hsa
      refine ⟨[], rest, rfl, by simp, by simpa using ha, ?_⟩
      simp [submittedStages, ha]

/-- C3: when the Step Functions chain catches a failure at stage `s`, the
reported failure is attributed to `s` (`s` failed while every other submitted
stage succeeded), and no stage downstream of `s` in the chain is ever
submitted — sync execution halts at the failing stage. -/
theorem syncmode_failfast_no_downstream (hp : Bool) (outcome : Stage → Bool)
    (s : Stage)
    (h : runChain outcome (pipelineChain hp) = SfnRunResult.notifyFailure s) :
    outcome s = false ∧
      (∀ t ∈ downstreamOf (pipelineChain hp) s,
        t ∉ submittedStages outcome (pipelineChain hp)) ∧
      ∀ t ∈ submittedStages outcome (pipelineChain hp),
        t = s ∨ outcome t = true := by
  obtain ⟨pre, post, hsplit, hpre, hs, hsub⟩ :=
    runChain_failure_split outcome (pipelineChain hp) s h
  have hnd : (pipelineChain hp).Nodup := by cases hp <;> decide
  rw [hsplit] at hnd
  obtain ⟨hndPre, hndPost, hdisj⟩ := List.nodup_append.mp hnd
  have hsNotPre : s ∉ pre := fun hmem =>
    hdisj hmem (List.mem_cons_self s post)
  have hsNotPost : s ∉ post := (List.nodup_cons.mp hndPost).1
  have hdrop : downstreamOf (pipelineChain hp) s = post := by
    unfold downstreamOf
    rw [hsplit, list_dropWhile_append_of_all _ pre (s :: post) ?hall]
    · rw [List.dropWhile_cons]
      simp
    case hall =>
      intro t ht
      have : t ≠ s := fun he => hsNotPre (he ▸ ht)
      simp [this]
  refine ⟨hs, ?_, ?_⟩
  · intro t ht
    rw [hdrop] at ht
    rw [hsub]
    intro hmem
    rcases List.mem_append.mp hmem with h1 | h1
    · exact hdisj h1 (List.mem_cons_of_mem s ht)
    · have : t = s := by simpa using h1
      exact hsNotPost (this ▸ ht)
  · intro t ht
    rw [hsub] at ht
    rcases List.mem_append.mp ht with h1 | h1
    · exact Or.inr (hpre t h1)
    · exact Or.inl (by simpa using h1)

theorem syncmode_failfast_no_downstream_witness :
    runChain failAtShardOutcome (pipelineChain false) =
        SfnRunResult.notifyFailure Stage.shard ∧
      (failAtShardOutcome Stage.shard = false ∧
        (∀ t ∈ downstreamOf (pipelineChain false) Stage.shard,
          t ∉ submittedStages failAtShardOutcome (pipelineChain false)) ∧
        ∀ t ∈ submittedStages failAtShardOutcome (pipelineChain false),
          t = Stage.shard ∨ failAtShardOutcome t = true) :=
  ⟨by decide,
    syncmode_failfast_no_downstream false failAtShardOutcome Stage.shard
      (by decide)⟩

/-- The executor performs at most `n + 1` attempts beyond index `i`. -/
lemma runTaskWithRetry_attempts_le (r : RetryProps) (outcome : Nat → Bool) :
    ∀ n i, (runTaskWithRetry r outcome n i).attemptsMade ≤ i + n + 1 := by
  intro n
  induction n with
  | zero =>
    intro i
    by_cases h : outcome i <;> simp [runTaskWithRetry, h]
  | succ m ih =>
    intro i
    by_cases h : outcome i
    · simp [runTaskWithRetry, h]
    · have hrec := ih (i + 1)
      simp [runTaskWithRetry, h]
      omega

/-- The executor performs at least one attempt from index `i`. -/
lemma runTaskWithRetry_attempts_ge (r : RetryProps) (outcome : Nat → Bool) :
    ∀ n i, i + 1 ≤ (runTaskWithRetry r outcome n i).attemptsMade := by
  intro n
  induction n with
  | zero =>
    intro i
    by_cases h : outcome i <;> simp [runTaskWithRetry, h]
  | succ m ih =>
    intro i
    by_cases h : outcome i
    · simp [runTaskWithRetry, h]
    · have hrec := ih (i + 1)
      simp [runTaskWithRetry, h]
      omega

/-- When every attempt in the window fails, the task ends in failure. -/
lemma runTaskWithRetry_failed_of_all (r : RetryProps) (outcome : Nat → Bool) :
    ∀ n i, (∀ j, i ≤ j → j ≤ i + n → outcome j = false) →
      (runTaskWithRetry r outcome n i).succeeded = false := by
  intro n
  induction n with
  | zero =>
    intro i h
    have hi : outcome i = false := h i (Nat.le_refl i) (by omega)
    simp [runTaskWithRetry, hi]
  | succ m ih =>
    intro i h
    have hi : outcome i = false := h i (Nat.le_refl i) (by omega)
    have hrec := ih (i + 1) (fun j h1 h2 => h j (by omega) (by omega))
    simp [runTaskWithRetry, hi, hrec]

/-- When the task ends in failure, every attempt in the window failed. -/
lemma runTaskWithRetry_all_of_failed (r : RetryProps) (outcome : Nat → Bool) :
    ∀ n i, (runTaskWithRetry r outcome n i).succeeded = false →
      ∀ j, i ≤ j → j ≤ i + n → outcome j = false := by
  intro n
  induction n with
  | zero =>
    intro i h j h1 h2
    have hj : j = i := by omega
    subst hj
    by_cases hi : outcome j
    · simp [runTaskWithRetry, hi] at h
    · simpa using hi
  | succ m ih =>
    intro i h j h1 h2
    by_cases hi : outcome i
    · simp [runTaskWithRetry, hi] at h
    · rcases Nat.eq_or_lt_of_le h1 with he | hlt
      · simpa [← he] using hi
      · have hrec : (runTaskWithRetry r outcome m (i + 1)).succeeded = false := by
          simpa [runTaskWithRetry, hi] using h
        exact ih (i + 1) hrec j (by omega) (by omega)

/-- When the first `n` attempts fail and attempt `i + n` succeeds, the task
succeeds after exactly `i + n + 1` attempts. -/
lemma runTaskWithRetry_succeeds_last (r : RetryProps) (outcome : Nat → Bool) :
    ∀ n i, (∀ j, i ≤ j → j < i + n → outcome j = false) →
      outcome (i + n) = true →
      (runTaskWithRetry r outcome n i).succeeded = true ∧
        (runTaskWithRetry r outcome n i).attemptsMade = i + n + 1 := by
  intro n
  induction n with
  | zero =>
    intro i _ hlast
    have hi : outcome i = true := by simpa using hlast
    simp [runTaskWithRetry, hi]
  | succ m ih =>
    intro i h hlast
    have hi : outcome i = false := h i (Nat.le_refl i) (by omega)
    have hlast2 : outcome (i + 1 + m) = true := by
      have : i + 1 + m = i + (m + 1) := by omega
      rw [this]
      exact hlast
    have hrec := ih (i + 1) (fun j h1 h2 => h j (by omega) (by omega)) hlast2
    refine ⟨?_, ?_⟩
    · simp [runTaskWithRetry, hi, hrec.1]
    · simp [runTaskWithRetry, hi, hrec.2]
      omega

/-- The delay inserted before the `k`-th retry (1-indexed, counted from the
attempt index `i` the executor started at) is
`interval * backoffRate ^ (k - 1)`. -/
lemma runTaskWithRetry_delays (r : RetryProps) (outcome : Nat → Bool) :
    ∀ n i, (runTaskWithRetry r outcome n i).retryDelays =
      (List.range ((runTaskWithRetry r outcome n i).attemptsMade - 1 - i)).map
        (fun k => r.intervalSeconds * r.backoffRate ^ (i + k)) := by
  intro n
  induction n with
  | zero =>
    intro i
    by_cases h : outcome i <;> simp [runTaskWithRetry, h]
  | succ m ih =>
    intro i
    by_cases h : outcome i
    · simp [runTaskWithRetry, h]
    · have hge := runTaskWithRetry_attempts_ge r outcome m (i + 1)
      have hrec := ih (i + 1)
      simp only [runTaskWithRetry, h]
      simp only [Bool.false_eq_true, if_false]
      have hcount : (runTaskWithRetry r outcome m (i + 1)).attemptsMade - 1 - i =
          ((runTaskWithRetry r outcome m (i + 1)).attemptsMade - 1 - (i + 1)) + 1 := by
        omega
      rw [hcount, List.range_succ_eq_map, List.map_cons, hrec]
      simp only [Nat.add_zero, List.map_map]
      refine congrArg (List.cons _) (List.map_congr_left ?_)
      intro k _
      simp only [Function.comp_apply]
      have : i + (k + 1) = i + 1 + k := by omega
      rw [this]

/-- C4 counterexample: under the download task's retry policy
(`addRetry` with `maxAttempts: 3`) a job whose first three attempts all fail
is **not** declared `Failed`: a fourth attempt still runs, and when it
succeeds the stage counts as `Succeeded`. The code therefore performs
`max_attempts + 1` total attempts, contradicting the claim that at most
`max_attempts` total attempts occur and that a job failing `max_attempts`
times is `Failed`. -/
theorem sfn_retry_exceeds_declared_max_attempts :
    (∀ j < downloadRetryProps.maxAttempts, failThriceOutcome j = false) ∧
      (sfnExecuteTask downloadRetryProps failThriceOutcome).succeeded = true ∧
      (sfnExecuteTask downloadRetryProps failThriceOutcome).attemptsMade =
        downloadRetryProps.maxAttempts + 1 := by
  refine ⟨by decide, by decide, by decide⟩

/-- C4 (amended): under a retry policy with `max_attempts` retries the task
runs at most `max_attempts + 1` total attempts (one initial attempt plus the
retries), waiting `base_delay * backoff_multiplier ^ (k - 1)` before the
`k`-th retry; the stage is declared `Failed` exactly when all
`max_attempts + 1` attempts fail, and a job that fails `max_attempts` times
and then succeeds on the final attempt counts the stage as `Succeeded`. -/
theorem sfn_retry_attempt_accounting (r : RetryProps) (outcome : Nat → Bool) :
    (sfnExecuteTask r outcome).attemptsMade ≤ r.maxAttempts + 1 ∧
      ((sfnExecuteTask r outcome).succeeded = false ↔
        ∀ j ≤ r.maxAttempts, outcome j = false) ∧
      ((∀ j < r.maxAttempts, outcome j = false) →
        outcome r.maxAttempts = true →
        (sfnExecuteTask r outcome).succeeded = true ∧
          (sfnExecuteTask r outcome).attemptsMade = r.maxAttempts + 1) ∧
      (sfnExecuteTask r outcome).retryDelays =
        (List.range ((sfnExecuteTask r outcome).attemptsMade - 1)).map
          (fun k => r.intervalSeconds * r.backoffRate ^ k) := by
  refine ⟨?_, ⟨?_, ?_⟩, ?_, ?_⟩
  · have := runTaskWithRetry_attempts_le r outcome r.maxAttempts 0
    simpa [sfnExecuteTask] using this
  · intro hfail j hj
    exact runTaskWithRetry_all_of_failed r outcome r.maxAttempts 0 hfail j
      (Nat.zero_le j) (by omega)
  · intro hall
    exact runTaskWithRetry_failed_of_all r outcome r.maxAttempts 0
      (fun j _ h2 => hall j (by omega))
  · intro hall hlast
    have := runTaskWithRetry_succeeds_last r outcome r.maxAttempts 0
      (fun j _ h2 => hall j (by omega)) (by simpa using hlast)
    simpa [sfnExecuteTask] using this
  · have := runTaskWithRetry_delays r outcome r.maxAttempts 0
    simpa [sfnExecuteTask] using this

theorem sfn_retry_attempt_accounting_witness :
    (sfnExecuteTask processRetryProps failThriceOutcome).attemptsMade ≤
      processRetryProps.maxAttempts + 1 :=
  (sfn_retry_attempt_accounting processRetryProps failThriceOutcome).1

/-- C5: a manifest that exists and parses to zero shard descriptors makes the
fan-out stage transition directly to `Succeeded` with no job submitted, and
the run proceeds to the fan-in stage; a missing manifest instead raises
`ManifestNotFoundError` and does not count as success. -/
theorem empty_manifest_fanout_succeeds (store store2 : ManifestStore)
    (s3 : S3Keys) (runId : String) (jobSucceeds : ShardFeature → Bool)
    (hempty : store.lookup (manifestKey runId) = some (some []))
    (hmissing : store2.lookup (manifestKey runId) = none) :
    runProcessStage store s3 runId jobSucceeds =
        { stageState := ProcessStageState.succeeded, submissions := [],
          proceedToFanIn := true } ∧
      runProcessStage store2 s3 runId jobSucceeds =
        { stageState :=
            ProcessStageState.blockedOnManifest ManifestError.manifestNotFound,
          submissions := [], proceedToFanIn := false } := by
  constructor
  · simp [runProcessStage, readManifest, hempty, restartProcessSubmissions]
  · simp [runProcessStage, readManifest, hmissing]

theorem empty_manifest_fanout_succeeds_witness :
    runProcessStage [(manifestKey "r", some [])] [] "r" (fun _ => true) =
        { stageState := ProcessStageState.succeeded, submissions := [],
          proceedToFanIn := true } ∧
      runProcessStage [] [] "r" (fun _ => true) =
        { stageState :=
            ProcessStageState.blockedOnManifest ManifestError.manifestNotFound,
          submissions := [], proceedToFanIn := false } :=
  empty_manifest_fanout_succeeds [(manifestKey "r", some [])] [] [] "r"
    (fun _ => true) (by simp) rfl

/-- C6 counterexample: the `SHARD_PREFIX` placed in the shard task's container
environment is read from the execution input's `shardPrefix` field, so two
executions with the same `run_id` can give the shard stage different artifact
prefixes — the artifact location is passed between stages as free-form
configuration rather than computed as a pure function of `run_id` and the
stage name. -/
theorem shard_prefix_not_function_of_run_id :
    (⟨"r1", "run/r1"⟩ : SfnExecInput).runId =
        (⟨"r1", "alt/r1"⟩ : SfnExecInput).runId ∧
      shardJobEnv ⟨"r1", "run/r1"⟩ ≠ shardJobEnv ⟨"r1", "alt/r1"⟩ := by
  decide

/-- C6 (amended): the sharder entrypoint derives its planet artifact key
purely from `run_id` — both entrypoint variants compute the identical key,
and distinct run ids always yield distinct keys — but the shard prefix used
by the shard and process stages is not derived from `run_id`: it is taken
verbatim from the execution input's `shardPrefix` field and handed to those
stages as configuration. -/
theorem planet_key_pure_shard_prefix_from_input :
    (∀ runId, sharderPlanetKey runId = sharderPlanetKeyLegacy runId) ∧
      (∀ r1 r2, sharderPlanetKey r1 = sharderPlanetKey r2 → r1 = r2) ∧
      ∀ input : SfnExecInput,
        (shardJobEnv input).lookup "SHARD_PREFIX" = some input.shardPrefixVal ∧
          (processJobEnv input).lookup "SHARD_PREFIX" =
            some input.shardPrefixVal := by
  refine ⟨fun _ => rfl, ?_, ?_⟩
  · intro r1 r2 h
    have h2 : (sharderPlanetKey r1).data = (sharderPlanetKey r2).data := by
      rw [h]
    simp only [sharderPlanetKey, String.data_append] at h2
    rw [List.append_assoc, List.append_assoc] at h2
    have h3 := List.append_cancel_left h2
    have h4 := List.append_cancel_right h3
    cases r1
    cases r2
    exact congrArg String.mk h4
  · intro input
    constructor <;> simp [shardJobEnv, processJobEnv, List.lookup]

/-- C7: when `run_id` is empty or `start_stage` names an unregistered stage,
the orchestrator's validation yields a `ConfigurationError`, the `run`
command exits non-zero with no stage submitted; and the sharder container
likewise exits 1 before doing any work when its `RUN_ID` is empty. -/
theorem config_validation_rejects_bad_input (runId : String)
    (startStage : Option String)
    (h : runId = "" ∨
      ∃ s, startStage = some s ∧ stageCatalog.contains s = false) :
    ((orchestratorRun runId startStage).exitCode ≠ 0 ∧
        (orchestratorRun runId startStage).submittedStageNames = [] ∧
        ∃ msg, validateRunContext runId startStage =
          Except.error (OrchestratorError.configurationError msg)) ∧
      ∀ bucket downloadOk size, runId = "" →
        sharderEntrypoint ⟨runId, bucket⟩ downloadOk size =
          { exitCode := 1, actions := [] } := by
  constructor
  · have herr : ∃ msg, validateRunContext runId startStage =
        Except.error (OrchestratorError.configurationError msg) := by
      rcases h with hr | ⟨s, hss, hnc⟩
      · exact ⟨"run_id must be non-empty", by simp [validateRunContext, hr]⟩
      · by_cases hr : runId = ""
        · exact ⟨"run_id must be non-empty", by simp [validateRunContext, hr]⟩
        · have hnc2 : s ∉ stageCatalog := by simpa using hnc
          exact ⟨"unknown start stage",
            by simp [validateRunContext, hr, hss, hnc2]⟩
    obtain ⟨msg, hmsg⟩ := herr
    refine ⟨?_, ?_, ⟨msg, hmsg⟩⟩
    · simp [orchestratorRun, hmsg]
    · simp [orchestratorRun, hmsg]
  · intro bucket downloadOk size hr
    simp [sharderEntrypoint, hr]

theorem config_validation_rejects_bad_input_witness :
    ((orchestratorRun "run-1" (some "bogus")).exitCode ≠ 0 ∧
        (orchestratorRun "run-1" (some "bogus")).submittedStageNames = [] ∧
        ∃ msg, validateRunContext "run-1" (some "bogus") =
          Except.error (OrchestratorError.configurationError msg)) ∧
      ∀ bucket downloadOk size, "run-1" = "" →
        sharderEntrypoint ⟨"run-1", bucket⟩ downloadOk size =
          { exitCode := 1, actions := [] } :=
  config_validation_rejects_bad_input "run-1" (some "bogus")
    (Or.inr ⟨"bogus", rfl, by decide⟩)

/-- C10: the bucket's lifecycle configuration expires an object 30 days after
creation exactly when its key lies under the `runs/` prefix; keys outside
`runs/` are not expired by any rule. -/
theorem runs_lifecycle_expiration (key : String) :
    objectExpirationDays dataBucketLifecycleRules key =
      if "runs/".isPrefixOf key then some 30 else none := by
  by_cases h : "runs/".isPrefixOf key <;>
    simp [objectExpirationDays, dataBucketLifecycleRules, ruleAppliesTo,
      cleanupIncompleteUploadsRule, expireOldRunsRule, h]

end OsmPoiCloud
